import Mathlib

/-!
Verification of the Salaaz CSV converter core (src/app.py, class
SalaazConverter) against its natural-language specification.

The Python code is shallowly embedded: pandas cells become `Cell := Option Val`
(`none` models NaN/None), DataFrames become `DF` (a column-name list plus
row-major cell lists), and every converter method becomes a Lean function of
the same name (leading underscores dropped, so `_find_best_match` is
`find_best_match`, etc.).  Python string operations used by the code
(`lower`, `strip`, the `in` substring test, `split`, `replace` of a single
character) are modelled by executable helpers on character lists.
-/

/-- A non-null pandas cell value as produced or consumed by the converter:
either a Python string or a Python int (category IDs are written as ints). -/
inductive Val where
  | str (s : String)
  | int (n : Int)
deriving DecidableEq, Repr

/-- A pandas cell: `none` models NaN/None. -/
abbrev Cell := Option Val

/-- Python `str(v)` for the values that occur in the converter. -/
def pyStr : Val → String
  | .str s => s
  | .int n => toString n

/-- Python truthiness of a cell (`not x` / `if x`): None, the empty string
and the integer 0 are falsy. -/
def pyTruthy : Cell → Bool
  | none => false
  | some (.str s) => !s.isEmpty
  | some (.int n) => n != 0

/-- Python truthiness of an optional integer (`if category_id:`). -/
def pyTruthyInt : Option Int → Bool
  | none => false
  | some n => n != 0

/-- Characters stripped by Python `str.strip()` with no argument. -/
def isPySpace (c : Char) : Bool :=
  c == ' ' || c == '\t' || c == '\n' || c == '\r' || c == '\x0b' || c == '\x0c'

/-- Python `str.strip()`. -/
def pyStrip (s : String) : String :=
  String.mk (((s.data.dropWhile isPySpace).reverse.dropWhile isPySpace).reverse)

/-- Python `str.lower()` (the converter only meets ASCII column names). -/
def pyLower (s : String) : String :=
  String.mk (s.data.map Char.toLower)

/-- Boolean test that `needle` occurs as a contiguous run inside `hay`
(a list-of-characters model of the Python `in` substring test). -/
def listInfix (needle : List Char) : List Char → Bool
  | [] => needle.isEmpty
  | c :: rest => needle.isPrefixOf (c :: rest) || listInfix needle rest

/-- Python `needle in haystack` on strings. -/
def pyIn (needle haystack : String) : Bool :=
  listInfix needle.data haystack.data

/-- Split a character list at every character satisfying `p`
(models Python `re.split` over a single-character class, and `str.split`
with a one-character separator). -/
def splitOnPred (p : Char → Bool) : List Char → List (List Char)
  | [] => [[]]
  | c :: rest =>
    let tail := splitOnPred p rest
    if p c then [] :: tail
    else
      match tail with
      | h :: t => (c :: h) :: t
      | [] => [[c]]

/-- Fuel-driven split of a character list on a multi-character separator,
models Python `str.split(sep)` for a non-empty separator.  The fuel is the
length of the input, which bounds the number of separator hits. -/
def splitSepGo (sep : List Char) : Nat → List Char → List Char → List (List Char)
  | 0, acc, l => [acc.reverse ++ l]
  | _ + 1, acc, [] => [acc.reverse]
  | fuel + 1, acc, c :: rest =>
    if sep.isPrefixOf (c :: rest) then
      acc.reverse :: splitSepGo sep fuel [] ((c :: rest).drop sep.length)
    else
      splitSepGo sep fuel (c :: acc) rest

/-- Python `s.split(sep)` for a non-empty separator string. -/
def pySplit (s sep : String) : List String :=
  (splitSepGo sep.data (s.data.length + 1) [] s.data).map String.mk

/-- Python `s.replace(old, new)` where `old` and `new` are single
characters (the only uses in the converter). -/
def pyReplaceChar (s : String) (old new : Char) : String :=
  String.mk (s.data.map (fun c => if c == old then new else c))

/-- One row of a category reference table, reduced to the two columns the
matcher reads: `name` (search column) and `id` (return column). -/
structure Entry where
  name : String
  id : Int
deriving DecidableEq, Repr

/-- The fixed keyword-synonym table of `_find_best_match`
(`keyword_mappings` in src/app.py lines 274-283), in source order. -/
def keyword_mappings : List (String × List String) :=
  [ ("apparel", ["clothing", "clothes"])
  , ("clothing", ["apparel", "clothes", "fashion"])
  , ("accessories", ["jewelry", "jewellery", "watches"])
  , ("traditional", ["ceremonial", "cultural"])
  , ("health", ["beauty", "wellness"])
  , ("home", ["house", "living", "decor"])
  , ("electronics", ["tech", "digital"])
  , ("books", ["literature", "reading"]) ]

/-- The keyword stage of `_find_best_match` for one table row: some keyword
occurs in the search term and one of its synonyms (or the keyword itself)
occurs in the row name, or the symmetric condition holds
(src/app.py lines 286-297). -/
def keywordHit (term name : String) : Bool :=
  keyword_mappings.any (fun kw =>
    (pyIn kw.1 term && (kw.2 ++ [kw.1]).any (fun syn => pyIn syn name)) ||
    (pyIn kw.1 name && (kw.2 ++ [kw.1]).any (fun syn => pyIn syn term)))

/-- Embedding of `SalaazConverter._find_best_match` (src/app.py lines
244-299).  The search term is lowercased and stripped once; the exact stage
compares it with each row name lowercased (pandas `.str.lower()`, with no
strip), the substring and keyword stages compare it with each row name
lowercased and stripped (`str(row[...]).lower().strip()`). -/
def find_best_match (search_term : String) (rows : List Entry) : Option Int :=
  if rows.isEmpty || search_term.isEmpty then none
  else
    let t := pyStrip (pyLower search_term)
    match rows.find? (fun r => pyLower r.name == t) with
    | some r => some r.id
    | none =>
      match rows.find? (fun r =>
          let n := pyStrip (pyLower r.name)
          pyIn n t || pyIn t n) with
      | some r => some r.id
      | none =>
        match rows.find? (fun r => keywordHit t (pyStrip (pyLower r.name))) with
        | some r => some r.id
        | none => none

/-- Embedding of `SalaazConverter.parse_shopify_category` (src/app.py lines
178-199): split the cell on the literal separator, strip each part, return
up to three levels. -/
def parse_shopify_category (category_string : Cell) :
    Option String × Option String × Option String :=
  if !(pyTruthy category_string) then (none, none, none)
  else
    let s := match category_string with
      | some v => pyStr v
      | none => ""
    let parts := (pySplit s " > ").map pyStrip
    (parts.get? 0, parts.get? 1, parts.get? 2)

example : pyIn "shirt" "t-shirts" = true := by decide
example : pyIn "care" "product category" = false := by decide
example : pyStrip " Shirts " = "Shirts" := by decide
example : pyLower " Shirts " = " shirts " := by decide
example : parse_shopify_category (some (.str "Apparel > Shirts")) =
    (some "Apparel", some "Shirts", none) := by decide
example : parse_shopify_category (some (.str "A > B > C")) =
    (some "A", some "B", some "C") := by decide
example : parse_shopify_category (some (.str "")) = (none, none, none) := by decide
example : find_best_match "shirts" [⟨"T-Shirts", 1⟩, ⟨" Shirts ", 2⟩] = some 1 := by decide
example : find_best_match " Shirts " [⟨"Shirt", 1⟩, ⟨" shirts ", 2⟩] = some 1 := by decide
example : find_best_match "Apparel" [⟨"Clothing", 9⟩] = some 9 := by decide

/-! ## DataFrame model -/

/-- Row-major model of a pandas DataFrame: an ordered list of column names
and one cell list per row (aligned with `cols` positionally). -/
structure DF where
  cols : List String
  rows : List (List Cell)
deriving DecidableEq, Repr

/-- Read position `i` of a row; positions beyond the row read as NaN. -/
def rowGet (r : List Cell) (i : Nat) : Cell :=
  r.getD i none

/-- Write position `i` of a row, padding with NaN if the row is shorter. -/
def rowSet (r : List Cell) (i : Nat) (v : Cell) : List Cell :=
  (r ++ List.replicate (i + 1 - r.length) none).set i v

/-- Index of a column name in a column list (first occurrence; the length of
the list when absent, which makes every read of an absent column NaN). -/
def colIdx (cols : List String) (c : String) : Nat :=
  cols.indexOf c

/-- Cell of row `i`, column `c` of a DataFrame. -/
def getCell (df : DF) (i : Nat) (c : String) : Cell :=
  rowGet (df.rows.getD i []) (colIdx df.cols c)

/-- Values of column `c` in row order (pandas `df[c].tolist()`). -/
def colVals (df : DF) (c : String) : List Cell :=
  df.rows.map (fun r => rowGet r (colIdx df.cols c))

/-- Pandas column assignment `df[c] = vals`: overwrite the column in place
when present, append a new column otherwise. -/
def setCol (df : DF) (c : String) (vals : List Cell) : DF :=
  if df.cols.contains c then
    { cols := df.cols
      rows := df.rows.mapIdx (fun i r => rowSet r (colIdx df.cols c) (vals.getD i none)) }
  else
    { cols := df.cols ++ [c]
      rows := df.rows.mapIdx (fun i r => rowSet r df.cols.length (vals.getD i none)) }

/-- Pandas `df[c] = df[c].apply(f)`: transform one column cell-wise. -/
def mapCol (df : DF) (c : String) (f : Cell → Cell) : DF :=
  { cols := df.cols
    rows := df.rows.map (fun r => rowSet r (colIdx df.cols c) (f (rowGet r (colIdx df.cols c)))) }

/-- Pandas `df[c].fillna(v)` assigned back to the column. -/
def fillnaCol (df : DF) (c : String) (v : Val) : DF :=
  { cols := df.cols
    rows := df.rows.map (fun r =>
      rowSet r (colIdx df.cols c)
        (match rowGet r (colIdx df.cols c) with
         | none => some v
         | some x => some x)) }

/-- Python dict assignment `d[k] = vals` on an association list: update the
value in place when the key exists, append the pair otherwise. -/
def dictSet (ps : List (String × List Cell)) (k : String) (vals : List Cell) :
    List (String × List Cell) :=
  if ps.any (fun p => p.1 == k) then
    ps.map (fun p => if p.1 == k then (p.1, vals) else p)
  else
    ps ++ [(k, vals)]

/-- Pandas `pd.DataFrame(dict)`: column names in key order, rows built by
reading each column positionally (all columns have equal length in every
use below; shorter columns would pad with NaN). -/
def mkDF (ps : List (String × List Cell)) : DF :=
  { cols := ps.map (fun p => p.1)
    rows := (List.range ((ps.map (fun p => p.2.length)).foldr max 0)).map
      (fun i => ps.map (fun p => p.2.getD i none)) }

/-! ## Converter static data (src/app.py lines 24-75) -/

/-- The 5 required Salaaz columns (src/app.py lines 25-27). -/
def SALAAZ_REQUIRED_COLUMNS : List String :=
  ["name", "description", "price", "brand", "category_id"]

/-- The 10 optional Salaaz columns (src/app.py lines 29-33). -/
def SALAAZ_OPTIONAL_COLUMNS : List String :=
  [ "sub_category_id", "sub_sub_category_id", "certification"
  , "country_of_origin", "details", "care", "size_fit"
  , "variant_attributes", "variant_quantity", "image_urls" ]

/-- All 15 Salaaz columns in fixed order (src/app.py line 35). -/
def ALL_SALAAZ_COLUMNS : List String :=
  SALAAZ_REQUIRED_COLUMNS ++ SALAAZ_OPTIONAL_COLUMNS

/-- The platform profile dictionaries (src/app.py lines 44-75), in source
insertion order: shopify, amazon, woocommerce. -/
def PLATFORM_MAPPINGS : List (String × List (String × List String)) :=
  [ ("shopify",
      [ ("name", ["Title", "Product Title", "title"])
      , ("description", ["Body (HTML)", "Description", "body_html"])
      , ("price", ["Variant Price", "Price", "price"])
      , ("brand", ["Vendor", "Brand", "vendor"])
      , ("variant_attributes", ["Option1 Name", "Option1 Value", "Option2 Name", "Option2 Value"])
      , ("variant_quantity", ["Variant Inventory Qty", "Inventory Quantity", "inventory_quantity"])
      , ("image_urls", ["Image Src", "Image URL", "image_src"])
      , ("category_source", ["Product Category", "Type", "Tags", "Category"]) ])
  , ("amazon",
      [ ("name", ["Product Name", "Title", "item-name"])
      , ("description", ["Product Description", "Description", "product-description"])
      , ("price", ["Price", "Standard Price", "standard-price"])
      , ("brand", ["Brand Name", "Brand", "brand-name"])
      , ("variant_attributes", ["Color", "Size", "Style"])
      , ("variant_quantity", ["Quantity", "Stock Quantity", "quantity"])
      , ("image_urls", ["Main Image URL", "Image URL", "main-image-url"])
      , ("category_source", ["Category", "Product Type", "Department"]) ])
  , ("woocommerce",
      [ ("name", ["Name", "Product Name", "post_title"])
      , ("description", ["Description", "Product Description", "post_content"])
      , ("price", ["Regular Price", "Price", "regular_price"])
      , ("brand", ["Brand", "Manufacturer", "brand"])
      , ("variant_attributes", ["Attribute 1 name", "Attribute 1 value(s)"])
      , ("variant_quantity", ["Stock", "Stock Quantity", "stock"])
      , ("image_urls", ["Images", "Gallery Images", "images"])
      , ("category_source", ["Categories", "Product categories", "Category"]) ]) ]

/-! ## Platform detection (src/app.py lines 77-97)

The Python code scores each platform as the float `score / total_possible`
with `total_possible = 8` for every profile, and compares scores with each
other and with the literal `0.3`.  Every such score is a multiple of `1/8`,
hence exactly representable in binary floating point, and no multiple of
`1/8` lies between `float(0.3)` and `3/10`; the float comparisons therefore
coincide with exact rational comparisons.  Scores are modelled as exact
fractions `(numerator, denominator)` compared by cross-multiplication. -/

/-- An exact non-negative fraction `fst / snd`. -/
abbrev Frac := Nat × Nat

/-- Strict comparison `a > b` of two fractions (positive denominators). -/
def fracGT (a b : Frac) : Bool :=
  a.1 * b.2 > b.1 * a.2

/-- Equality test of two fractions (positive denominators). -/
def fracEQ (a b : Frac) : Bool :=
  a.1 * b.2 == b.1 * a.2

/-- Score of one platform profile against a set of lowercased source
columns: fields with at least one synonym present, divided by the number of
fields in the profile (src/app.py lines 83-93; the code yields a score of 0
for an empty profile). -/
def platform_score (colset : List String) (profile : List (String × List String)) : Frac :=
  let score := (profile.filter (fun f =>
    f.2.any (fun possible => colset.contains (pyLower possible)))).length
  if profile.length > 0 then (score, profile.length) else (0, 1)

/-- Python `max(scores.items(), key=lambda x: x[1])` over a non-empty list
given as head and tail: keeps the earlier item unless a later one is
strictly greater. -/
def pyMaxBySnd (hd : String × Frac) (tl : List (String × Frac)) : String × Frac :=
  tl.foldl (fun best x => if fracGT x.2 best.2 then x else best) hd

/-- Threshold selection of `detect_platform` (src/app.py lines 96-97):
the best-scoring platform when its score exceeds 0.3, else none. -/
def selectPlatform (scores : List (String × Frac)) : Option String :=
  match scores with
  | [] => none
  | h :: t =>
    let best := pyMaxBySnd h t
    if fracGT best.2 (3, 10) then some best.1 else none

/-- Embedding of `SalaazConverter.detect_platform` (src/app.py lines 77-97). -/
def detect_platform (columns : List String) : Option String :=
  let column_set := columns.map pyLower
  selectPlatform (PLATFORM_MAPPINGS.map (fun p => (p.1, platform_score column_set p.2)))

/-- Selection rule as worded by the specification (spec.md section 4.1):
if some score exceeds 0.3, return the first platform (in enumeration order)
whose score equals the highest score, otherwise report no platform. -/
def selectPlatformSpec (scores : List (String × Frac)) : Option String :=
  match scores with
  | [] => none
  | h :: t =>
    let highest := t.foldl (fun acc s => if fracGT s.2 acc then s.2 else acc) h.2
    if scores.any (fun s => fracGT s.2 (3, 10)) then
      (scores.find? (fun s => fracEQ s.2 highest)).map (fun s => s.1)
    else none

/-- Restatement of the Platform Detector from the specification text
(spec.md section 4.1): per-profile score is synonym coverage over the
profile size; if some score exceeds 0.3, return the first profile (in the
fixed shopify, amazon, woocommerce order) reaching the maximum score,
otherwise report no platform. -/
def detect_platform_spec (columns : List String) : Option String :=
  let column_set := columns.map pyLower
  selectPlatformSpec (PLATFORM_MAPPINGS.map (fun p => (p.1, platform_score column_set p.2)))

example : detect_platform ["Title", "Body (HTML)", "Vendor"] = some "shopify" := by decide
example : detect_platform ["foo", "bar"] = none := by decide
example : detect_platform ["Price", "Description", "Brand", "Category"] = some "shopify" := by decide
example : detect_platform ["item-name", "product-description", "standard-price", "brand-name"] = some "amazon" := by decide

/-! ## Field mapping suggestion (src/app.py lines 99-156) -/

/-- The fixed per-field keyword sets of `_fuzzy_match_column`
(src/app.py lines 139-148), in source order. -/
def fuzzy_keywords : List (String × List String) :=
  [ ("name", ["title", "name", "product"])
  , ("description", ["description", "body", "content", "details"])
  , ("price", ["price", "cost", "amount"])
  , ("brand", ["brand", "vendor", "manufacturer"])
  , ("category_id", ["category", "type", "classification"])
  , ("variant_quantity", ["quantity", "stock", "inventory", "qty"])
  , ("image_urls", ["image", "photo", "picture", "url"])
  , ("category_source", ["category", "type", "tags", "classification", "department"]) ]

/-- Embedding of `SalaazConverter._fuzzy_match_column` (src/app.py lines
124-156): exact case-insensitive match, then substring match in either
direction, then first source column containing any keyword of the target
field (keywords tried in listed order). -/
def fuzzy_match_column (target : String) (source_columns : List String) : Option String :=
  let target_lower := pyLower target
  match source_columns.find? (fun col => pyLower col == target_lower) with
  | some col => some col
  | none =>
    match source_columns.find? (fun col =>
        pyIn target_lower (pyLower col) || pyIn (pyLower col) target_lower) with
    | some col => some col
    | none =>
      match (fuzzy_keywords.find? (fun kw => kw.1 == target)).map (fun kw => kw.2) with
      | some kws =>
        kws.findSome? (fun keyword =>
          source_columns.find? (fun col => pyIn keyword (pyLower col)))
      | none => none

/-- Platform stage of `suggest_mapping` for one target field (src/app.py
lines 108-113): the first synonym whose lowercase form occurs among the
lowercased source columns selects the first source column with that
lowercase form. -/
def platformFieldMatch (source_columns : List String) (possible : List String) : Option String :=
  possible.findSome? (fun possible_col =>
    source_columns.find? (fun col => pyLower col == pyLower possible_col))

/-- One step of the platform stage of `suggest_mapping` (src/app.py lines
108-113): record the field when one of its synonyms matches a source
column. -/
def platStep (source_columns : List String) (m : List (String × String))
    (f : String × List String) : List (String × String) :=
  match platformFieldMatch source_columns f.2 with
  | some col => m ++ [(f.1, col)]
  | none => m

/-- One step of the fuzzy fallback stage of `suggest_mapping` (src/app.py
lines 116-120): fields already mapped are skipped, others get their fuzzy
match when one exists. -/
def fuzzyStep (source_columns : List String) (m : List (String × String))
    (salaaz_field : String) : List (String × String) :=
  if m.any (fun e => e.1 == salaaz_field) then m
  else
    match fuzzy_match_column salaaz_field source_columns with
    | some col => m ++ [(salaaz_field, col)]
    | none => m

/-- Embedding of `SalaazConverter.suggest_mapping` (src/app.py lines
99-122) as an association list in Python dict insertion order: the platform
profile stage first (when a known, non-empty platform is given), then the
fuzzy fallback over all 15 Salaaz columns for fields still unmapped. -/
def suggest_mapping (source_columns : List String) (platform : Option String) :
    List (String × String) :=
  let platStage :=
    match platform with
    | none => []
    | some p =>
      if p.isEmpty then []
      else
        match PLATFORM_MAPPINGS.find? (fun q => q.1 == p) with
        | none => []
        | some prof => prof.2.foldl (platStep source_columns) []
  ALL_SALAAZ_COLUMNS.foldl (fuzzyStep source_columns) platStage

example : suggest_mapping ["Title", "Body (HTML)", "Vendor", "Variant Price", "Product Category"]
    (some "shopify") =
    [ ("name", "Title"), ("description", "Body (HTML)"), ("price", "Variant Price")
    , ("brand", "Vendor"), ("category_source", "Product Category")
    , ("category_id", "Product Category") ] := by decide
example : suggest_mapping ["Product Category"] (some "shopify") =
    [ ("category_source", "Product Category"), ("name", "Product Category")
    , ("category_id", "Product Category") ] := by decide

/-! ## Category resolution (src/app.py lines 158-341)

The converter instance state consists of the three reference tables loaded
at startup (`self.categories_df`, `self.sub_categories_df`,
`self.sub_sub_categories_df`); a missing CSV file leaves the table `none`.
Methods that read the instance are threaded through the state explicitly
(suffix `S`) and return the state they leave behind, mirroring the Python
attribute accesses. -/

/-- One row of a sub-category or sub-sub-category reference table: its id,
its name, and its parent id (`category_id` resp. `sub_category_id`). -/
structure SubEntry where
  id : Int
  name : String
  parent : Int
deriving DecidableEq, Repr

/-- The mutable state of a `SalaazConverter` instance. -/
structure ConverterState where
  categories_df : Option (List Entry)
  sub_categories_df : Option (List SubEntry)
  sub_sub_categories_df : Option (List SubEntry)
deriving DecidableEq, Repr

/-- A converter whose reference CSV files were absent (all tables `none`). -/
def noTablesState : ConverterState := ⟨none, none, none⟩

/-- Truthiness test `if category_name and ...` for an optional string. -/
def pyTruthyStr : Option String → Bool
  | none => false
  | some s => !s.isEmpty

/-- Embedding of `SalaazConverter.find_category_ids` (src/app.py lines
201-242), threaded through the instance state it reads. -/
def find_category_idsS (st : ConverterState)
    (category_name sub_category_name sub_sub_category_name : Option String) :
    ConverterState × (Option Int × Option Int × Option Int) :=
  let category_id :=
    match category_name, st.categories_df with
    | some c, some tbl => if c.isEmpty then none else find_best_match c tbl
    | _, _ => none
  let sub_category_id :=
    match sub_category_name, st.sub_categories_df with
    | some scn, some tbl =>
      if scn.isEmpty then none
      else
        let filtered_df :=
          if pyTruthyInt category_id then tbl.filter (fun r => r.parent == category_id.getD 0)
          else tbl
        find_best_match scn (filtered_df.map (fun r => ⟨r.name, r.id⟩))
    | _, _ => none
  let sub_sub_category_id :=
    match sub_sub_category_name, st.sub_sub_categories_df with
    | some sscn, some tbl =>
      if sscn.isEmpty then none
      else
        let filtered_df :=
          if pyTruthyInt sub_category_id then tbl.filter (fun r => r.parent == sub_category_id.getD 0)
          else tbl
        find_best_match sscn (filtered_df.map (fun r => ⟨r.name, r.id⟩))
    | _, _ => none
  (st, (category_id, sub_category_id, sub_sub_category_id))

/-- Python `x if x else 1` on an optional id (src/app.py lines 337-339). -/
def defaultId (o : Option Int) : Int :=
  if pyTruthyInt o then o.getD 1 else 1

/-- Embedding of `SalaazConverter.map_shopify_categories` (src/app.py lines
301-341), threaded through the instance state.  The method works on a copy
of the input frame, initialises the three id columns to None, and either
broadcasts the integer default 1 into `category_id` (category column
absent) or resolves each row, defaulting every unresolved level to the
integer 1. -/
def map_shopify_categoriesS (st : ConverterState) (df : DF) (category_column : String) :
    ConverterState × DF :=
  let n := df.rows.length
  let result0 := setCol df "category_id" (List.replicate n none)
  let result1 := setCol result0 "sub_category_id" (List.replicate n none)
  let result2 := setCol result1 "sub_sub_category_id" (List.replicate n none)
  if !(df.cols.contains category_column) then
    (st, setCol result2 "category_id" (List.replicate n (some (.int 1))))
  else
    let step := df.rows.foldl
      (fun (acc : ConverterState × List (Int × Int × Int)) row =>
        let category_string := rowGet row (colIdx df.cols category_column)
        let parsed := parse_shopify_category category_string
        let found := find_category_idsS acc.1 parsed.1 parsed.2.1 parsed.2.2
        (found.1, acc.2 ++ [(defaultId found.2.1, defaultId found.2.2.1, defaultId found.2.2.2)]))
      (st, [])
    let r3 := setCol result2 "category_id" (step.2.map (fun t => some (.int t.1)))
    let r4 := setCol r3 "sub_category_id" (step.2.map (fun t => some (.int t.2.1)))
    let r5 := setCol r4 "sub_sub_category_id" (step.2.map (fun t => some (.int t.2.2)))
    (step.1, r5)

/-! ## Post-processing helpers (src/app.py lines 389-503) -/

/-- Leading zeros of a Python float integer part collapse; an all-zero or
empty integer part prints as a single 0. -/
def stripLeadingZeros (l : List Char) : List Char :=
  match l.dropWhile (fun c => c == '0') with
  | [] => ['0']
  | r => r

/-- Decimal model of Python `str(float(s))` for the cleaned price strings,
which consist of digits and dots only (no sign, no exponent, no inf/nan).
Parsing fails exactly when `float(s)` raises ValueError: no digit at all or
more than one dot.  Formatting normalises the decimal (drop leading zeros
of the integer part, drop trailing zeros of the fraction, print `.0` for an
integral value), which equals the CPython float repr whenever the decimal
fits double precision exactly as printed (at most 15 significant digits,
magnitude below 1e16) - true of every value this development evaluates. -/
def pyFloatRepr (s : String) : Option String :=
  if s.data.any (fun c => !(c.isDigit || c == '.')) then none
  else
    match splitOnPred (fun c => c == '.') s.data with
    | [ip] =>
      if ip.isEmpty then none
      else some (String.mk (stripLeadingZeros ip) ++ ".0")
    | [ip, fp] =>
      if ip.isEmpty && fp.isEmpty then none
      else
        let ipn := stripLeadingZeros ip
        let fpn := (fp.reverse.dropWhile (fun c => c == '0')).reverse
        some (String.mk ipn ++ (if fpn.isEmpty then ".0" else "." ++ String.mk fpn))
    | _ => none

/-- Embedding of `SalaazConverter._clean_price` (src/app.py lines 421-441):
keep only digits, comma and dot; with both comma and dot present remove the
commas (thousands separators), with only commas present turn them into
dots (decimal separator); then parse as a float and return its string form,
or None on failure.  (Python `\d` also accepts non-ASCII digits; the model
uses ASCII digits, which is what price data contains.) -/
def clean_price (price_value : Cell) : Cell :=
  match price_value with
  | none => none
  | some v =>
    let price_str0 := pyStrip (pyStr v)
    let price_str1 := String.mk (price_str0.data.filter (fun c => c.isDigit || c == '.' || c == ','))
    let price_str2 :=
      if price_str1.data.any (fun c => c == ',') && price_str1.data.any (fun c => c == '.') then
        String.mk (price_str1.data.filter (fun c => !(c == ',')))
      else if price_str1.data.any (fun c => c == ',') then
        pyReplaceChar price_str1 ',' '.'
      else price_str1
    match pyFloatRepr price_str2 with
    | some s => some (.str s)
    | none => none

/-- Python `\w` over ASCII: letters, digits, underscore. -/
def isWordChar (c : Char) : Bool :=
  c.isAlphanum || c == '_'

/-- Python dict assignment `d[k] = v` on a string-to-string association
list: update in place when the key exists, append otherwise (insertion
order preserved, as in a Python dict). -/
def pyDictSetStr (l : List (String × String)) (k v : String) : List (String × String) :=
  if l.any (fun p => p.1 == k) then
    l.map (fun p => if p.1 == k then (p.1, v) else p)
  else l ++ [(k, v)]

/-- Hexadecimal digit for JSON escapes. -/
def hexDigit (n : Nat) : Char :=
  if n < 10 then Char.ofNat (48 + n) else Char.ofNat (87 + n)

/-- Four-digit hexadecimal code for a JSON `u`-escape. -/
def hex4 (n : Nat) : String :=
  String.mk [hexDigit (n / 4096 % 16), hexDigit (n / 256 % 16), hexDigit (n / 16 % 16), hexDigit (n % 16)]

/-- Escaping of one character by `json.dumps` (default ensure_ascii):
backslash, quote and the named control characters get two-character
escapes, other characters below 0x20 or above 0x7e get u-escapes
(characters beyond the basic multilingual plane would use surrogate pairs;
none occur in this development). -/
def jsonEscapeChar (c : Char) : String :=
  if c == '"' then "\\\""
  else if c == '\\' then "\\\\"
  else if c == '\n' then "\\n"
  else if c == '\t' then "\\t"
  else if c == '\r' then "\\r"
  else if c == '\x08' then "\\b"
  else if c == '\x0c' then "\\f"
  else if c.toNat < 32 || c.toNat > 126 then "\\u" ++ hex4 c.toNat
  else String.mk [c]

/-- JSON string literal for `s`. -/
def jsonQuote (s : String) : String :=
  "\"" ++ String.join (s.data.map jsonEscapeChar) ++ "\""

/-- Python `json.dumps` of a string-to-string dict in insertion order
(default separators: comma-space between items, colon-space inside). -/
def jsonDumps (l : List (String × String)) : String :=
  String.mk ['{'] ++ String.intercalate ", " (l.map (fun p => jsonQuote p.1 ++ ": " ++ jsonQuote p.2)) ++ String.mk ['}']

/-- Source columns scanned for variant attributes (src/app.py lines
447-451): every source column whose lowercased name contains one of the six
keywords. -/
def variantColumns (source_df : DF) : List String :=
  source_df.cols.filter (fun col =>
    ["color", "size", "style", "option", "variant", "attribute"].any
      (fun keyword => pyIn keyword (pyLower col)))

/-- The attribute dict built for one source row (src/app.py lines 456-463):
sanitized column name (lowercased, spaces to underscores, non-word
characters removed) mapped to the trimmed cell value, skipping null and
blank values. -/
def rowVariantAttrs (source_cols : List String) (vcols : List String) (row : List Cell) :
    List (String × String) :=
  vcols.foldl (fun attrs col =>
    match rowGet row (colIdx source_cols col) with
    | none => attrs
    | some value =>
      if (pyStrip (pyStr value)).isEmpty then attrs
      else
        let attr_name := String.mk ((pyReplaceChar (pyLower col) ' ' '_').data.filter isWordChar)
        pyDictSetStr attrs attr_name (pyStrip (pyStr value))) []

/-- Embedding of `SalaazConverter._process_variant_attributes` (src/app.py
lines 443-469): when at least one source column name contains a variant
keyword, overwrite the whole `variant_attributes` column with the per-row
JSON dict (None for a row with no non-blank attribute); when no source
column matches, the frame is returned unchanged. -/
def process_variant_attributes (result_df source_df : DF)
    (_mapping : List (String × String)) : DF :=
  let variant_columns := variantColumns source_df
  if variant_columns.isEmpty then result_df
  else
    let variant_attrs := source_df.rows.map (fun row =>
      let attrs := rowVariantAttrs source_df.cols variant_columns row
      if attrs.isEmpty then (none : Cell) else some (.str (jsonDumps attrs)))
    setCol result_df "variant_attributes" variant_attrs

/-- Python `s.startswith(p)`. -/
def pyStartsWith (s p : String) : Bool :=
  p.data.isPrefixOf s.data

/-- Embedding of `SalaazConverter._clean_image_urls` (src/app.py lines
471-490): split on semicolon, comma, pipe or newline, trim each part, keep
parts starting with http or https, join survivors with commas, None if
nothing survives. -/
def clean_image_urls (image_value : Cell) : Cell :=
  match image_value with
  | none => none
  | some v =>
    let image_str := pyStrip (pyStr v)
    if image_str.isEmpty then none
    else
      let urls := (splitOnPred (fun c => c == ';' || c == ',' || c == '|' || c == '\n') image_str.data).map String.mk
      let clean_urls := (urls.map pyStrip).filter (fun url =>
        !url.isEmpty && (pyStartsWith url "http" || pyStartsWith url "https"))
      if clean_urls.isEmpty then none
      else some (.str (String.intercalate "," clean_urls))

/-- Embedding of `SalaazConverter._set_default_values` (src/app.py lines
492-503): fill missing `category_id` cells with the string 1 and missing
`variant_quantity` cells with the string 0. -/
def set_default_values (result_df : DF) : DF :=
  let r1 :=
    if result_df.cols.contains "category_id" then fillnaCol result_df "category_id" (.str "1")
    else result_df
  if r1.cols.contains "variant_quantity" then fillnaCol r1 "variant_quantity" (.str "0")
  else r1

/-- Non-null and non-blank test used by the required-field row filter
(src/app.py lines 409-414): `notna()` and `astype(str).str.strip() != `
empty. -/
def nonBlank (c : Cell) : Bool :=
  match c with
  | none => false
  | some v => !(pyStrip (pyStr v)).isEmpty

/-- Price-cleaning stage of `_post_process_data` (src/app.py lines
393-394). -/
def price_stage (df : DF) : DF :=
  if df.cols.contains "price" then mapCol df "price" clean_price else df

/-- Image-url-cleaning stage of `_post_process_data` (src/app.py lines
400-401). -/
def image_stage (df : DF) : DF :=
  if df.cols.contains "image_urls" then mapCol df "image_urls" clean_image_urls else df

/-- Required-field row filter of `_post_process_data` (src/app.py lines
406-414): drop rows whose name or description is missing or blank. -/
def required_row_filter (df : DF) : DF :=
  if df.cols.contains "name" && df.cols.contains "description" then
    { cols := df.cols
      rows := df.rows.filter (fun row =>
        nonBlank (rowGet row (colIdx df.cols "name")) &&
        nonBlank (rowGet row (colIdx df.cols "description"))) }
  else df

/-- Final `dropna(how=all)` of `_post_process_data` (src/app.py line 417):
drop rows whose cells are all null. -/
def dropAllNullRows (df : DF) : DF :=
  { cols := df.cols
    rows := df.rows.filter (fun row => row.any (fun c => !c.isNone)) }

/-- Embedding of `SalaazConverter._post_process_data` (src/app.py lines
389-419): clean prices, process variant attributes, clean image urls, set
defaults, drop rows with missing or blank name or description, drop rows
that are entirely null - applied in exactly this order. -/
def post_process_data (result_df source_df : DF) (mapping : List (String × String)) : DF :=
  dropAllNullRows (required_row_filter (set_default_values
    (image_stage (process_variant_attributes (price_stage result_df) source_df mapping))))

/-! ## The transformer (src/app.py lines 343-387) -/

/-- One step of the column-copy loop of `transform_data` (src/app.py lines
352-354): a mapping entry whose source column is non-empty and present in
the frame overwrites the dict entry for its Salaaz column. -/
def buildStep (df : DF) (ps : List (String × List Cell)) (kv : String × String) :
    List (String × List Cell) :=
  if !kv.2.isEmpty && df.cols.contains kv.2 then dictSet ps kv.1 (colVals df kv.2) else ps

/-- Embedding of `SalaazConverter.transform_data`, threaded through the
instance state: initialise all 15 Salaaz columns to None, copy each mapped
source column, resolve the category ids when the platform is known and one
of its category-source candidate columns is present, then post-process. -/
def transform_dataS (st : ConverterState) (df : DF) (mapping : List (String × String))
    (platform : Option String) : ConverterState × DF :=
  let n := df.rows.length
  let pairs0 := ALL_SALAAZ_COLUMNS.map (fun col => (col, List.replicate n (none : Cell)))
  let pairs1 := mapping.foldl (buildStep df) pairs0
  let result_df := mkDF pairs1
  let afterCat :=
    match platform with
    | none => (st, result_df)
    | some p =>
      if p.isEmpty then (st, result_df)
      else
        match PLATFORM_MAPPINGS.find? (fun (q : String × List (String × List String)) => q.1 == p) with
        | none => (st, result_df)
        | some prof =>
          let candidates := ((prof.2.find? (fun (f : String × List String) => f.1 == "category_source")).map
            (fun (f : String × List String) => f.2)).getD []
          match candidates.find? (fun candidate => df.cols.contains candidate) with
          | none => (st, result_df)
          | some category_source_col =>
            let mapped := map_shopify_categoriesS st df category_source_col
            let r1 :=
              if mapped.2.cols.contains "category_id" then
                setCol result_df "category_id" (colVals mapped.2 "category_id")
              else result_df
            let r2 :=
              if mapped.2.cols.contains "sub_category_id" then
                setCol r1 "sub_category_id" (colVals mapped.2 "sub_category_id")
              else r1
            let r3 :=
              if mapped.2.cols.contains "sub_sub_category_id" then
                setCol r2 "sub_sub_category_id" (colVals mapped.2 "sub_sub_category_id")
              else r2
            (mapped.1, r3)
  (afterCat.1, post_process_data afterCat.2 df mapping)

/-- The transformed table of `transform_data` (the value the Python method
returns). -/
def transform_data (st : ConverterState) (df : DF) (mapping : List (String × String))
    (platform : Option String) : DF :=
  (transform_dataS st df mapping platform).2

/-! ## Validation (src/app.py lines 505-546) -/

/-- The validation report dictionary (src/app.py lines 540-546). -/
structure ValidationReport where
  valid : Bool
  issues : List String
  warnings : List String
  total_rows : Nat
  complete_rows : Nat
deriving DecidableEq, Repr

/-- Python float literal acceptance by `float(str)`: optional surrounding
whitespace, optional sign, digits with at most one dot and at least one
digit, optional exponent, or the inf / infinity / nan words.  (Underscore
digit grouping, accepted by CPython, is not modelled; no value here uses
it.) -/
def validFloatBody (l : List Char) : Bool :=
  l.all (fun c => c.isDigit || c == '.') &&
  (l.filter (fun c => c == '.')).length ≤ 1 &&
  l.any Char.isDigit

/-- Acceptance test of Python `float(s)` on a string. -/
def validFloatLit (s : String) : Bool :=
  let l := (pyStrip s).data.map Char.toLower
  let body := match l with
    | c :: r => if c == '+' || c == '-' then r else l
    | [] => l
  if body == "inf".data || body == "infinity".data || body == "nan".data then true
  else
    match splitOnPred (fun c => c == 'e') body with
    | [m] => validFloatBody m
    | [m, ex] =>
      let exDigits := match ex with
        | c :: r => if c == '+' || c == '-' then r else ex
        | [] => ex
      validFloatBody m && !exDigits.isEmpty && exDigits.all Char.isDigit
    | _ => false

/-- Whether Python `float(v)` succeeds on a cell value. -/
def pyFloatable : Val → Bool
  | .int _ => true
  | .str s => validFloatLit s

/-- Whether Python `int(v)` succeeds on a cell value. -/
def pyIntable : Val → Bool
  | .int _ => true
  | .str s =>
    let l := (pyStrip s).data
    let body := match l with
      | c :: r => if c == '+' || c == '-' then r else l
      | [] => l
    !body.isEmpty && body.all Char.isDigit

/-- A single apostrophe character, kept out of string literals. -/
def aposChar : String := String.mk [Char.ofNat 39]

/-- Issue text for a present column with missing values. -/
def missingValuesMsg (col : String) (n : Nat) : String :=
  "Column " ++ aposChar ++ col ++ aposChar ++ " has " ++ toString n ++ " missing values"

/-- Embedding of `SalaazConverter.validate_salaaz_data` (src/app.py lines
505-546).  The issues and warnings are collected first; the returned report
dictionary then evaluates `df.dropna(subset=REQUIRED)`, which raises a
pandas KeyError whenever one of the five required labels is not a column of
the frame - modelled as the error branch of `Except`. -/
def validate_salaaz_data (df : DF) : Except String ValidationReport :=
  let issues := SALAAZ_REQUIRED_COLUMNS.foldl (fun acc col =>
    if !(df.cols.contains col) then acc ++ ["Missing required column: " ++ col]
    else
      let missing_count := ((colVals df col).filter (fun c => c.isNone)).length
      if missing_count > 0 then acc ++ [missingValuesMsg col missing_count] else acc) []
  let warnings1 :=
    if df.cols.contains "price" then
      let invalid_prices := (((colVals df "price").filterMap id).filter (fun v => !pyFloatable v)).length
      if invalid_prices > 0 then [toString invalid_prices ++ " rows have invalid price format"]
      else []
    else []
  let warnings2 :=
    if df.cols.contains "category_id" then
      let invalid_categories := (((colVals df "category_id").filterMap id).filter (fun v => !pyIntable v)).length
      if invalid_categories > 0 then [toString invalid_categories ++ " rows have invalid category_id format"]
      else []
    else []
  if SALAAZ_REQUIRED_COLUMNS.all (fun c => df.cols.contains c) then
    .ok { valid := issues.isEmpty
          issues := issues
          warnings := warnings1 ++ warnings2
          total_rows := df.rows.length
          complete_rows := (df.rows.filter (fun row =>
            SALAAZ_REQUIRED_COLUMNS.all (fun c => !(rowGet row (colIdx df.cols c)).isNone))).length }
  else
    .error "KeyError"

/-! ## Concrete scenario data -/

/-- The single-row input table of the end-to-end scenario (spec.md
section 8). -/
def scenarioDF : DF :=
  { cols := ["Title", "Body (HTML)", "Vendor", "Variant Price", "Product Category"]
    rows := [[some (.str "Shirt"), some (.str "Nice"), some (.str "Acme"),
              some (.str "$9.99"), some (.str "Apparel > Shirts")]] }

/-- The suggested mapping for the scenario table under the shopify profile. -/
def scenarioMapping : List (String × String) :=
  suggest_mapping scenarioDF.cols (some "shopify")

/-- The transformed scenario table (no reference tables loaded). -/
def scenarioOut : DF :=
  transform_data noTablesState scenarioDF scenarioMapping (some "shopify")

/-! ## Specification mirror of the price normalization -/

/-- Price normalization exactly as worded by the specification (spec.md
section 4.4 step 1): strip all characters except digits, comma and dot; if
both a comma and a dot remain treat commas as thousands separators (remove
them), else if only commas remain treat the comma as a decimal separator
(replace with dot); parse as a floating-point number and keep its string
form, null on failure. -/
def clean_price_spec (price_value : Cell) : Cell :=
  match price_value with
  | none => none
  | some v =>
    let kept := String.mk ((pyStr v).data.filter (fun c => c.isDigit || c == '.' || c == ','))
    let canon :=
      if kept.data.any (fun c => c == ',') then
        if kept.data.any (fun c => c == '.') then
          String.mk (kept.data.filter (fun c => !(c == ',')))
        else pyReplaceChar kept ',' '.'
      else kept
    match pyFloatRepr canon with
    | some s => some (.str s)
    | none => none

/-! ## Concrete frames used by counterexamples and witnesses -/

/-- A table with none of the five required columns. -/
def missingColsDF : DF :=
  { cols := ["foo"], rows := [[some (.str "bar")]] }

/-- A source table with no variant-keyword column; its third column is
meant to be mapped onto variant_attributes by hand. -/
def noVariantSrc : DF :=
  { cols := ["N", "D", "V"]
    rows := [[some (.str "Product"), some (.str "Desc"), some (.str "hello")]] }

/-- A mapping that sends variant_attributes to the plain column V. -/
def noVariantMapping : List (String × String) :=
  [("name", "N"), ("description", "D"), ("variant_attributes", "V")]

/-- A one-column source table whose single column is a variant keyword. -/
def colorSrc : DF :=
  { cols := ["Color"], rows := [[some (.str "Red")]] }

/-- A one-column result frame into which colorSrc attributes are written. -/
def colorResult : DF :=
  { cols := ["variant_attributes"], rows := [[none]] }

/-! ## Helper lemmas -/

lemma pyIn_self (s : String) : pyIn s s = true := by
  unfold pyIn
  cases h : s.data with
  | nil => simp [listInfix]
  | cons c r => simp [listInfix, List.isPrefixOf_iff_prefix]

lemma find_best_match_guard {rows : List Entry} {term : String}
    (hrows : rows ≠ []) (hterm : term ≠ "") :
    (rows.isEmpty || term.isEmpty) = false := by
  have h1 : rows.isEmpty = false := by simp [List.isEmpty_iff, hrows]
  have h2 : term.isEmpty = false := by
    rw [Bool.eq_false_iff]
    intro hcontr
    exact hterm ((String.isEmpty_iff term).mp hcontr)
  simp [h1, h2]

/-! ## Theorems settling the claims -/

/-- C5 (amended): for every search term and table in which some row name,
lowercased, equals the lowercased and stripped term, best_match returns the
id of the first such row - the exact stage is decided before the substring
and keyword stages are consulted, so a weaker hit never overrides it. -/
theorem C5_exact_stage_wins (term : String) (rows : List Entry) (r : Entry)
    (hterm : term ≠ "")
    (hfind : rows.find? (fun e => pyLower e.name == pyStrip (pyLower term)) = some r) :
    find_best_match term rows = some r.id := by
  have hrows : rows ≠ [] := by
    intro h
    subst h
    simp at hfind
  unfold find_best_match
  rw [find_best_match_guard hrows hterm]
  simp only [Bool.false_eq_true, if_false, hfind]

/-- Witness for C5 at a concrete term and table. -/
theorem C5_witness :
    find_best_match "Apparel" [⟨"Gadgets", 3⟩, ⟨"apparel", 4⟩] = some 4 :=
  C5_exact_stage_wins "Apparel" [⟨"Gadgets", 3⟩, ⟨"apparel", 4⟩] ⟨"apparel", 4⟩
    (by decide) (by decide)

/-- C5 fails as stated: the row " shirts " is equal to the term " Shirts "
under plain case-insensitive comparison, yet its id 2 is not returned; the
code strips the term but not the row names at the exact stage, so the
earlier substring hit "Shirt" wins instead. -/
theorem C5_counterexample :
    find_best_match " Shirts " [⟨"Shirt", 1⟩, ⟨" shirts ", 2⟩] = some 1 ∧
    pyLower " shirts " = pyLower " Shirts " ∧ (1 : Int) ≠ 2 := by decide

/-- C4 (amended): the term is compared lowercased and stripped, row names
are compared lowercased at the exact stage and lowercased and stripped at
the later stages; hence a row whose stored name differs from the term only
in letter case and surrounding whitespace always produces a match - the
returned id is the id of some table row (the first row succeeding at the
strongest applicable stage), though an earlier row may supply it. -/
theorem C4_case_whitespace_match (term : String) (rows : List Entry)
    (hterm : term ≠ "")
    (h : ∃ r ∈ rows, pyStrip (pyLower r.name) = pyStrip (pyLower term)) :
    ∃ e ∈ rows, find_best_match term rows = some e.id := by
  obtain ⟨r, hr, hname⟩ := h
  have hrows : rows ≠ [] := by
    intro hnil
    subst hnil
    simp at hr
  unfold find_best_match
  rw [find_best_match_guard hrows hterm]
  simp only [Bool.false_eq_true, if_false]
  cases hexact : rows.find? (fun e => pyLower e.name == pyStrip (pyLower term)) with
  | some e =>
    exact ⟨e, List.mem_of_find?_eq_some hexact, rfl⟩
  | none =>
    have hsub : (rows.find? (fun e =>
        let n := pyStrip (pyLower e.name)
        pyIn n (pyStrip (pyLower term)) || pyIn (pyStrip (pyLower term)) n)).isSome := by
      apply List.find?_isSome.mpr
      refine ⟨r, hr, ?_⟩
      simp only [hname, pyIn_self, Bool.or_self]
    obtain ⟨e, he⟩ := Option.isSome_iff_exists.mp hsub
    exact ⟨e, List.mem_of_find?_eq_some he, by rw [he]⟩

/-- Witness for C4 at a concrete term and table. -/
theorem C4_witness :
    ∃ e ∈ [(⟨" BOOKS ", 7⟩ : Entry)], find_best_match "Books" [⟨" BOOKS ", 7⟩] = some e.id :=
  C4_case_whitespace_match "Books" [⟨" BOOKS ", 7⟩] (by decide)
    ⟨⟨" BOOKS ", 7⟩, by decide, by decide⟩

/-- C4 fails as stated: the row " Shirts " differs from the term "shirts"
only in case and surrounding whitespace, yet its id 2 is not returned
because row names are not stripped at the exact stage and the earlier row
"T-Shirts" then wins the substring stage. -/
theorem C4_counterexample :
    find_best_match "shirts" [⟨"T-Shirts", 1⟩, ⟨" Shirts ", 2⟩] = some 1 ∧ (1 : Int) ≠ 2 := by
  decide

/-- C1 fails as stated: in the end-to-end scenario the category defaults
are written by map_shopify_categories as Python integers, so the output
cell holds the integer 1 and not the string "1". -/
theorem C1_counterexample :
    ¬ (getCell scenarioOut 0 "category_id" = some (.str "1") ∧
       getCell scenarioOut 0 "sub_category_id" = some (.str "1")) := by decide

/-- C1 (amended): the end-to-end scenario yields exactly one output row
with name Shirt, description Nice, brand Acme, price the string 9.99, and
category_id and sub_category_id both the integer 1 (the unresolved-category
default written by the category mapper is the number 1, not the string). -/
theorem C1_end_to_end :
    scenarioOut.rows.length = 1 ∧
    getCell scenarioOut 0 "name" = some (.str "Shirt") ∧
    getCell scenarioOut 0 "description" = some (.str "Nice") ∧
    getCell scenarioOut 0 "brand" = some (.str "Acme") ∧
    getCell scenarioOut 0 "price" = some (.str "9.99") ∧
    getCell scenarioOut 0 "category_id" = some (.int 1) ∧
    getCell scenarioOut 0 "sub_category_id" = some (.int 1) := by decide

/-- C2: the claim matches the evident intent of the validator (its first
loop builds the Missing required column issues), but the report dictionary
ends with df.dropna(subset=REQUIRED), which raises a pandas KeyError
whenever a required column is absent, so no report is returned for exactly
the tables the claim covers. -/
theorem C2_missing_required_columns_raise :
    validate_salaaz_data missingColsDF = .error "KeyError" := rfl

/-- C6: price normalization follows the specification wording exactly (the
code additionally strips surrounding whitespace first, which the character
filter subsumes), and the three quoted examples evaluate as claimed. -/
theorem C6_clean_price_follows_spec :
    (∀ v : Cell, clean_price v = clean_price_spec v) ∧
    clean_price (some (.str "$1,234.56")) = some (.str "1234.56") ∧
    clean_price (some (.str "19,99")) = some (.str "19.99") ∧
    clean_price (some (.str "abc")) = none := by
  refine ⟨?_, by decide, by decide, by decide⟩
  intro v
  cases v with
  | none => rfl
  | some val =>
    have hfilter : ∀ (keep : Char → Bool), (∀ c, isPySpace c = true → keep c = false) →
        ∀ l : List Char,
          (((l.dropWhile isPySpace).reverse.dropWhile isPySpace).reverse).filter keep =
            l.filter keep := by
      intro keep hk
      have hdrop : ∀ l : List Char, (l.dropWhile isPySpace).filter keep = l.filter keep := by
        intro l
        induction l with
        | nil => rfl
        | cons c r ih =>
          by_cases hc : isPySpace c = true
          · simp [List.dropWhile_cons, hc, List.filter_cons, hk c hc, ih]
          · simp [List.dropWhile_cons, hc]
      intro l
      calc (((l.dropWhile isPySpace).reverse.dropWhile isPySpace).reverse).filter keep
          = (((l.dropWhile isPySpace).reverse.dropWhile isPySpace).filter keep).reverse := by
            rw [List.filter_reverse]
        _ = (((l.dropWhile isPySpace).reverse).filter keep).reverse := by rw [hdrop]
        _ = (((l.dropWhile isPySpace).filter keep).reverse).reverse := by rw [List.filter_reverse]
        _ = (l.dropWhile isPySpace).filter keep := by rw [List.reverse_reverse]
        _ = l.filter keep := hdrop l
    have hspace : ∀ c : Char, isPySpace c = true → (c.isDigit || c == '.' || c == ',') = false := by
      intro c hc
      simp only [isPySpace, Bool.or_eq_true, beq_iff_eq] at hc
      rcases hc with ((((h | h) | h) | h) | h) | h <;> subst h <;> decide
    simp only [clean_price, clean_price_spec, pyStrip]
    rw [hfilter _ hspace]
    by_cases hcomma : ((pyStr val).data.filter (fun c => c.isDigit || c == '.' || c == ',')).any (fun c => c == ',')
    · by_cases hdot : ((pyStr val).data.filter (fun c => c.isDigit || c == '.' || c == ',')).any (fun c => c == '.')
      · simp [hcomma, hdot]
      · simp [hcomma, hdot]
    · simp [hcomma]

/-- C7 (amended): the transformer computes variant_attributes without ever
consulting the field mapping, and when at least one source column name
contains a variant keyword it overwrites the whole column with the per-row
JSON dict of sanitized attribute names to trimmed values (null for a row
with no non-blank attribute).  When no source column name contains a
keyword, however, the frame - including any value the mapping copied into
variant_attributes - is left unchanged rather than set to null. -/
theorem C7_variant_overwrite (result_df source_df : DF) (m1 m2 : List (String × String)) :
    process_variant_attributes result_df source_df m1 =
      process_variant_attributes result_df source_df m2 ∧
    (variantColumns source_df ≠ [] →
      process_variant_attributes result_df source_df m1 =
        setCol result_df "variant_attributes" (source_df.rows.map (fun row =>
          let attrs := rowVariantAttrs source_df.cols (variantColumns source_df) row
          if attrs.isEmpty then (none : Cell) else some (.str (jsonDumps attrs))))) ∧
    (variantColumns source_df = [] →
      process_variant_attributes result_df source_df m1 = result_df) := by
  refine ⟨rfl, ?_, ?_⟩
  · intro h
    have hne : (variantColumns source_df).isEmpty = false := by
      simp [List.isEmpty_iff, h]
    simp [process_variant_attributes, hne]
  · intro h
    simp [process_variant_attributes, h]

/-- Witness for C7 on a source table with one variant-keyword column. -/
theorem C7_witness :
    process_variant_attributes colorResult colorSrc [] =
      setCol colorResult "variant_attributes" (colorSrc.rows.map (fun row =>
        let attrs := rowVariantAttrs colorSrc.cols (variantColumns colorSrc) row
        if attrs.isEmpty then (none : Cell) else some (.str (jsonDumps attrs)))) :=
  (C7_variant_overwrite colorResult colorSrc [] []).2.1 (by decide)

/-- C7 fails as stated: when no source column name contains a variant
keyword, the value copied by the mapping into variant_attributes survives
instead of being replaced by null. -/
theorem C7_counterexample :
    getCell (transform_data noTablesState noVariantSrc noVariantMapping none) 0
      "variant_attributes" = some (.str "hello") := by decide

lemma platStep_keys (sc : List String) (m : List (String × String)) (f : String × List String)
    (k : String) (h : k ∈ (platStep sc m f).map Prod.fst) :
    k ∈ m.map Prod.fst ∨ k = f.1 := by
  unfold platStep at h
  split at h
  · rw [List.map_append, List.mem_append] at h
    rcases h with h | h
    · exact Or.inl h
    · simp at h
      exact Or.inr h
  · exact Or.inl h

lemma foldl_platStep_keys (sc : List String) (fields : List (String × List String)) :
    ∀ (init : List (String × String)) (k : String),
      k ∈ (fields.foldl (platStep sc) init).map Prod.fst →
      k ∈ init.map Prod.fst ∨ k ∈ fields.map Prod.fst := by
  induction fields with
  | nil => exact fun init k h => Or.inl h
  | cons f fields ih =>
    intro init k h
    rw [List.foldl_cons] at h
    rcases ih (platStep sc init f) k h with h1 | h1
    · rcases platStep_keys sc init f k h1 with h2 | h2
      · exact Or.inl h2
      · exact Or.inr (by simp [h2])
    · exact Or.inr (by simp [h1])

lemma fuzzyStep_keys (sc : List String) (m : List (String × String)) (f : String)
    (k : String) (h : k ∈ (fuzzyStep sc m f).map Prod.fst) :
    k ∈ m.map Prod.fst ∨ k = f := by
  unfold fuzzyStep at h
  split at h
  · exact Or.inl h
  · split at h
    · rw [List.map_append, List.mem_append] at h
      rcases h with h | h
      · exact Or.inl h
      · simp at h
        exact Or.inr h
    · exact Or.inl h

lemma foldl_fuzzyStep_keys (sc : List String) (L : List String) :
    ∀ (init : List (String × String)) (k : String),
      k ∈ (L.foldl (fuzzyStep sc) init).map Prod.fst →
      k ∈ init.map Prod.fst ∨ k ∈ L := by
  induction L with
  | nil => exact fun init k h => Or.inl h
  | cons f L ih =>
    intro init k h
    rw [List.foldl_cons] at h
    rcases ih (fuzzyStep sc init f) k h with h1 | h1
    · rcases fuzzyStep_keys sc init f k h1 with h2 | h2
      · exact Or.inl h2
      · exact Or.inr (by simp [h2])
    · exact Or.inr (by simp [h1])

lemma profile_keys_bound :
    ∀ prof ∈ PLATFORM_MAPPINGS, ∀ k ∈ prof.2.map Prod.fst,
      k ∈ ALL_SALAAZ_COLUMNS ∨ k = "category_source" := by decide

/-- C8 (amended): every key of the mapping returned by suggest_mapping is
one of the 15 Salaaz schema fields or the extra profile entry
category_source, which the platform stage copies into the mapping although
it is not a schema field. -/
theorem C8_keys_schema_or_category_source (source_columns : List String)
    (platform : Option String) (k : String)
    (hk : k ∈ (suggest_mapping source_columns platform).map Prod.fst) :
    k ∈ ALL_SALAAZ_COLUMNS ∨ k = "category_source" := by
  unfold suggest_mapping at hk
  rcases foldl_fuzzyStep_keys source_columns ALL_SALAAZ_COLUMNS _ k hk with h | h
  · cases platform with
    | none => simp at h
    | some p =>
      dsimp only at h
      by_cases hp : p.isEmpty
      · simp [hp] at h
      · rw [if_neg hp] at h
        cases hf : PLATFORM_MAPPINGS.find? (fun q => q.1 == p) with
        | none =>
          rw [hf] at h
          simp at h
        | some prof =>
          rw [hf] at h
          rcases foldl_platStep_keys source_columns prof.2 [] k h with h1 | h1
          · simp at h1
          · exact profile_keys_bound prof (List.mem_of_find?_eq_some hf) k h1
  · exact Or.inl h

/-- Witness for C8 at a concrete column list and platform. -/
theorem C8_witness :
    "name" ∈ ALL_SALAAZ_COLUMNS ∨ "name" = "category_source" :=
  C8_keys_schema_or_category_source ["Title"] (some "shopify") "name" (by decide)

/-- C8 fails as stated: with the single source column Product Category and
the shopify profile, the suggested mapping contains the key
category_source, which is not among the 15 target-schema fields. -/
theorem C8_counterexample :
    "category_source" ∈ (suggest_mapping ["Product Category"] (some "shopify")).map Prod.fst ∧
    "category_source" ∉ ALL_SALAAZ_COLUMNS := by decide

lemma find_category_idsS_state (st : ConverterState) (a b c : Option String) :
    (find_category_idsS st a b c).1 = st := rfl

lemma catFold_state (cols : List String) (cc : String) (rows : List (List Cell)) :
    ∀ (acc : ConverterState × List (Int × Int × Int)),
      (rows.foldl (fun acc row =>
        let category_string := rowGet row (colIdx cols cc)
        let parsed := parse_shopify_category category_string
        let found := find_category_idsS acc.1 parsed.1 parsed.2.1 parsed.2.2
        (found.1, acc.2 ++ [(defaultId found.2.1, defaultId found.2.2.1, defaultId found.2.2.2)]))
        acc).1 = acc.1 := by
  induction rows with
  | nil => intro acc; rfl
  | cons r rows ih =>
    intro acc
    rw [List.foldl_cons, ih]
    rfl

lemma map_shopify_categoriesS_state (st : ConverterState) (df : DF) (c : String) :
    (map_shopify_categoriesS st df c).1 = st := by
  unfold map_shopify_categoriesS
  dsimp only
  split
  · rfl
  · exact catFold_state df.cols c df.rows (st, [])

/-- C10: the transformer only reads the converter state (the three
reference tables): the state after a call is the state before it, and a
second call of transform_data with the same table, mapping and platform on
the state left by the first call returns the identical output table.  (The
embedding threads the instance state through every method that touches
`self`; the input table is only ever read, and all frame updates act on the
copies the code creates.) -/
theorem C10_transformer_pure (st : ConverterState) (df : DF)
    (mapping : List (String × String)) (platform : Option String) :
    (transform_dataS st df mapping platform).1 = st ∧
    transform_data (transform_dataS st df mapping platform).1 df mapping platform =
      transform_data st df mapping platform := by
  have hst : (transform_dataS st df mapping platform).1 = st := by
    unfold transform_dataS
    dsimp only
    split
    · rfl
    · split
      · rfl
      · split
        · rfl
        · split
          · rfl
          · exact map_shopify_categoriesS_state st df _
  exact ⟨hst, by rw [hst]⟩

lemma getD_set_lt (l : List Cell) (i : Nat) (v : Cell) (h : i < l.length) :
    (l.set i v).getD i none = v := by
  rw [List.getD_eq_getElem?_getD, List.getElem?_set_self h]
  rfl

lemma rowGet_rowSet_self (r : List Cell) (i : Nat) (v : Cell) :
    rowGet (rowSet r i v) i = v := by
  unfold rowGet rowSet
  apply getD_set_lt
  rw [List.length_append, List.length_replicate]
  omega

lemma rowGet_none_of_ge (r : List Cell) (i : Nat) (h : r.length ≤ i) :
    rowGet r i = none := by
  unfold rowGet
  rw [List.getD_eq_getElem?_getD, List.getElem?_eq_none h]
  rfl

lemma rowGet_rowSet_other (r : List Cell) (i j : Nat) (v : Cell) (hne : j ≠ i)
    (hi : i < r.length) : rowGet (rowSet r j v) i = rowGet r i := by
  unfold rowGet rowSet
  rw [List.getD_eq_getElem?_getD, List.getElem?_set_ne hne,
    List.getElem?_append_left hi, List.getD_eq_getElem?_getD]

lemma rowGet_rowSet_keep (r : List Cell) (i j : Nat) (v : Cell) (hv : v ≠ none)
    (h : rowGet r i ≠ none) : rowGet (rowSet r j v) i ≠ none := by
  by_cases hij : i = j
  · subst hij
    rw [rowGet_rowSet_self]
    exact hv
  · have hi : i < r.length := by
      by_contra hge
      exact h (rowGet_none_of_ge r i (Nat.le_of_not_lt hge))
    rw [rowGet_rowSet_other r i j v (fun hh => hij hh.symm) hi]
    exact h

lemma fillna_target_some (df : DF) (c : String) (v : Val) :
    ∀ row ∈ (fillnaCol df c v).rows, rowGet row (colIdx df.cols c) ≠ none := by
  intro row hrow
  unfold fillnaCol at hrow
  simp only [List.mem_map] at hrow
  obtain ⟨r, hr, rfl⟩ := hrow
  rw [rowGet_rowSet_self]
  cases hcell : rowGet r (colIdx df.cols c) <;> simp [hcell]

lemma fillna_keep (df : DF) (c : String) (v : Val) (i : Nat)
    (h : ∀ row ∈ df.rows, rowGet row i ≠ none) :
    ∀ row ∈ (fillnaCol df c v).rows, rowGet row i ≠ none := by
  intro row hrow
  unfold fillnaCol at hrow
  simp only [List.mem_map] at hrow
  obtain ⟨r, hr, rfl⟩ := hrow
  apply rowGet_rowSet_keep
  · cases hcell : rowGet r (colIdx df.cols c) <;> simp
  · exact h r hr

lemma setCol_cols_mem (df : DF) (c c' : String) (vals : List Cell) (h : c' ∈ df.cols) :
    c' ∈ (setCol df c vals).cols := by
  unfold setCol
  split
  · exact h
  · exact List.mem_append_left _ h

lemma contains_of_mem {l : List String} {a : String} (h : a ∈ l) : l.contains a = true :=
  List.elem_eq_true_of_mem h

lemma set_default_values_cols (df : DF) : (set_default_values df).cols = df.cols := by
  unfold set_default_values
  dsimp only
  split <;> split <;> rfl

lemma set_default_category_some (df : DF) (h : "category_id" ∈ df.cols) :
    ∀ row ∈ (set_default_values df).rows, rowGet row (colIdx df.cols "category_id") ≠ none := by
  unfold set_default_values
  dsimp only
  rw [if_pos (contains_of_mem h)]
  split
  · exact fillna_keep _ _ _ _ (fillna_target_some df "category_id" (.str "1"))
  · exact fillna_target_some df "category_id" (.str "1")

lemma price_stage_cols (df : DF) : (price_stage df).cols = df.cols := by
  unfold price_stage
  split <;> rfl

lemma image_stage_cols (df : DF) : (image_stage df).cols = df.cols := by
  unfold image_stage
  split <;> rfl

lemma variant_cols_mem (df sdf : DF) (m : List (String × String)) (c : String)
    (h : c ∈ df.cols) : c ∈ (process_variant_attributes df sdf m).cols := by
  unfold process_variant_attributes
  dsimp only
  split
  · exact h
  · exact setCol_cols_mem _ _ _ _ h

lemma required_row_filter_cols (df : DF) : (required_row_filter df).cols = df.cols := by
  unfold required_row_filter
  split <;> rfl

lemma required_row_filter_rows (df : DF) :
    ∀ row ∈ (required_row_filter df).rows, row ∈ df.rows := by
  unfold required_row_filter
  split
  · exact fun row h => List.mem_of_mem_filter h
  · exact fun row h => h

lemma dropAllNullRows_rows (df : DF) :
    ∀ row ∈ (dropAllNullRows df).rows, row ∈ df.rows :=
  fun _row h => List.mem_of_mem_filter h

lemma post_process_category_id (rdf sdf : DF) (m : List (String × String))
    (hmem : "category_id" ∈ rdf.cols) :
    ∀ row ∈ (post_process_data rdf sdf m).rows,
      rowGet row (colIdx (post_process_data rdf sdf m).cols "category_id") ≠ none := by
  intro row hrow
  unfold post_process_data at hrow ⊢
  set X := image_stage (process_variant_attributes (price_stage rdf) sdf m) with hX
  have hmemX : "category_id" ∈ X.cols := by
    rw [hX, image_stage_cols]
    exact variant_cols_mem _ _ _ _ (by rw [price_stage_cols]; exact hmem)
  have hcols : (dropAllNullRows (required_row_filter (set_default_values X))).cols = X.cols := by
    rw [show (dropAllNullRows (required_row_filter (set_default_values X))).cols =
        (required_row_filter (set_default_values X)).cols from rfl,
      required_row_filter_cols, set_default_values_cols]
  rw [hcols]
  have hrow2 : row ∈ (set_default_values X).rows :=
    required_row_filter_rows _ row (dropAllNullRows_rows _ row hrow)
  exact set_default_category_some X hmemX row hrow2

lemma dictSet_keys_mem (ps : List (String × List Cell)) (k k' : String) (vals : List Cell)
    (h : k ∈ ps.map Prod.fst) : k ∈ (dictSet ps k' vals).map Prod.fst := by
  unfold dictSet
  split
  · have heq : (ps.map (fun p => if p.1 == k' then (p.1, vals) else p)).map Prod.fst =
        ps.map Prod.fst := by
      rw [List.map_map]
      apply List.map_congr_left
      intro p _
      dsimp only [Function.comp]
      split <;> rfl
    rw [heq]
    exact h
  · rw [List.map_append]
    exact List.mem_append_left _ h

lemma foldl_buildStep_keys (df : DF) (mapping : List (String × String)) :
    ∀ (init : List (String × List Cell)) (k : String), k ∈ init.map Prod.fst →
      k ∈ (mapping.foldl (buildStep df) init).map Prod.fst := by
  induction mapping with
  | nil => exact fun init k h => h
  | cons kv mapping ih =>
    intro init k h
    rw [List.foldl_cons]
    apply ih
    unfold buildStep
    split
    · exact dictSet_keys_mem _ _ _ _ h
    · exact h

lemma mem_cols_ite (P : Prop) [Decidable P] (df : DF) (c c' : String) (vals : List Cell)
    (h : c' ∈ df.cols) : c' ∈ (if P then setCol df c vals else df).cols := by
  split
  · exact setCol_cols_mem _ _ _ _ h
  · exact h

lemma transform_data_as_post (st : ConverterState) (df : DF)
    (mapping : List (String × String)) (platform : Option String) :
    ∃ X : DF, transform_data st df mapping platform = post_process_data X df mapping ∧
      "category_id" ∈ X.cols := by
  have hbase : ∀ n : Nat, "category_id" ∈ (mkDF (mapping.foldl (buildStep df)
      (ALL_SALAAZ_COLUMNS.map (fun col => (col, List.replicate n (none : Cell)))))).cols := by
    intro n
    show "category_id" ∈ (mapping.foldl (buildStep df) _).map Prod.fst
    apply foldl_buildStep_keys
    have : (ALL_SALAAZ_COLUMNS.map
        (fun col => (col, List.replicate n (none : Cell)))).map Prod.fst = ALL_SALAAZ_COLUMNS := by
      rw [List.map_map]
      rw [show (Prod.fst ∘ fun col : String => (col, List.replicate n (none : Cell))) = id from rfl]
      rw [List.map_id]
    rw [this]
    decide
  unfold transform_data transform_dataS
  dsimp only
  split
  · exact ⟨_, rfl, hbase _⟩
  · split
    · exact ⟨_, rfl, hbase _⟩
    · split
      · exact ⟨_, rfl, hbase _⟩
      · split
        · exact ⟨_, rfl, hbase _⟩
        · refine ⟨_, rfl, ?_⟩
          exact mem_cols_ite _ _ _ _ _ (mem_cols_ite _ _ _ _ _ (mem_cols_ite _ _ _ _ _ (hbase _)))

/-- C9: every row of the table returned by transform_data carries a
non-null category_id: the defaulting pass fills every missing category_id
with the string 1 before the row filters run, and the category mapper only
ever writes non-null ids. -/
theorem C9_category_id_never_null (st : ConverterState) (df : DF)
    (mapping : List (String × String)) (platform : Option String)
    (row : List Cell) (hrow : row ∈ (transform_data st df mapping platform).rows) :
    rowGet row (colIdx (transform_data st df mapping platform).cols "category_id") ≠ none := by
  obtain ⟨X, hXeq, hXmem⟩ := transform_data_as_post st df mapping platform
  rw [hXeq] at hrow ⊢
  exact post_process_category_id X df mapping hXmem row hrow

/-- Witness for C9 at a concrete conversion. -/
theorem C9_witness :
    rowGet ((transform_data noTablesState noVariantSrc noVariantMapping none).rows.getD 0 [])
      (colIdx (transform_data noTablesState noVariantSrc noVariantMapping none).cols
        "category_id") ≠ none :=
  C9_category_id_never_null noTablesState noVariantSrc noVariantMapping none _ (by decide)

lemma fracGT8 (a b : Nat) : fracGT (a, 8) (b, 8) = decide (b < a) := by
  rw [Bool.eq_iff_iff]
  simp only [fracGT, decide_eq_true_eq]
  omega

lemma fracGT8_thresh (a : Nat) : fracGT (a, 8) (3, 10) = decide (2 < a) := by
  rw [Bool.eq_iff_iff]
  simp only [fracGT, decide_eq_true_eq]
  omega

lemma fracEQ8 (a b : Nat) : fracEQ (a, 8) (b, 8) = decide (a = b) := by
  rw [Bool.eq_iff_iff]
  simp only [fracEQ, beq_iff_eq, decide_eq_true_eq]
  omega

lemma platform_score_profile (colset : List String) (profile : List (String × List String))
    (h : profile.length = 8) :
    platform_score colset profile =
      ((profile.filter (fun f => f.2.any (fun possible => colset.contains (pyLower possible)))).length, 8) := by
  unfold platform_score
  rw [h]
  norm_num

lemma select3_eq (n1 n2 n3 : String) (x y z : Nat) :
    selectPlatform [(n1, (x, 8)), (n2, (y, 8)), (n3, (z, 8))] =
      selectPlatformSpec [(n1, (x, 8)), (n2, (y, 8)), (n3, (z, 8))] := by
  unfold selectPlatform selectPlatformSpec pyMaxBySnd
  simp only [List.foldl_cons, List.foldl_nil, List.any_cons, List.any_nil, Bool.or_false,
    fracGT8, fracGT8_thresh]
  by_cases h1 : x < y
  · by_cases h2 : y < z
    · by_cases h3 : 2 < z
      · have hxz : ¬(x = z) := by omega
        have hyz : ¬(y = z) := by omega
        simp [List.find?, fracGT8, fracGT8_thresh, fracEQ8, h1, h2, h3, hxz, hyz]
      · have hx : ¬(2 < x) := by omega
        have hy : ¬(2 < y) := by omega
        simp [fracGT8, fracGT8_thresh, h1, h2, h3, hx, hy]
    · by_cases h3 : 2 < y
      · have hxy : ¬(x = y) := by omega
        simp [List.find?, fracGT8, fracGT8_thresh, fracEQ8, h1, h2, h3, hxy]
      · have hx : ¬(2 < x) := by omega
        have hz : ¬(2 < z) := by omega
        simp [fracGT8, fracGT8_thresh, h1, h2, h3, hx, hz]
  · by_cases h2 : x < z
    · by_cases h3 : 2 < z
      · have hxz : ¬(x = z) := by omega
        have hyz : ¬(y = z) := by omega
        simp [List.find?, fracGT8, fracGT8_thresh, fracEQ8, h1, h2, h3, hxz, hyz]
      · have hx : ¬(2 < x) := by omega
        have hy : ¬(2 < y) := by omega
        simp [fracGT8, fracGT8_thresh, h1, h2, h3, hx, hy]
    · by_cases h3 : 2 < x
      · simp [List.find?, fracGT8, fracGT8_thresh, fracEQ8, h1, h2, h3]
      · have hy : ¬(2 < y) := by omega
        have hz : ¬(2 < z) := by omega
        simp [fracGT8, fracGT8_thresh, h1, h2, h3, hy, hz]

/-- C3: detect_platform computes exactly the specified selection: each
profile is scored by synonym coverage over its 8 target fields (including
category_source), the best-scoring platform is returned when some score
exceeds 0.3, ties go to the first profile in the fixed shopify, amazon,
woocommerce order, and otherwise no platform is reported. -/
theorem C3_detect_platform_matches_spec (columns : List String) :
    detect_platform columns = detect_platform_spec columns := by
  unfold detect_platform detect_platform_spec
  dsimp only
  simp only [PLATFORM_MAPPINGS, List.map_cons, List.map_nil]
  rw [platform_score_profile (columns.map pyLower) _ (by decide),
    platform_score_profile (columns.map pyLower) _ (by decide),
    platform_score_profile (columns.map pyLower) _ (by decide)]
  exact select3_eq _ _ _ _ _ _
